import Mathlib

/-!
Verification of the `arp-scan-rs` scan engine against its specification.

The development shallowly embeds the Rust sources (`src/main.rs`,
`src/utils.rs`) in Lean: IPv4 and hardware addresses are natural numbers,
fallible computations that abort the process are `Except` values, and the
two-thread coordinator is modelled as an explicit event trace indexed by
the successive reads of the shared stop flag.  Components that live in
crate modules not shipped under `src/` (the address-space iterator, the
scan estimator and the response collector) are modelled from the
specification text, as marked in their doc comments.
-/

namespace ArpScan

/- IPv4 addresses are modelled as their 32-bit numeric value and hardware
(MAC) addresses as their 48-bit numeric value, both plain `Nat`s. -/

/-- An IP network block (CIDR) as provided by the external `ipnetwork`
crate: either an IPv4 or an IPv6 network, with base address and prefix
length. -/
inductive IpNetwork where
  | V4 (addr : Nat) (prefixLen : Nat)
  | V6 (addr : Nat) (prefixLen : Nat)
deriving DecidableEq

/-- The size of an IP network, tagged by address family, mirroring
`ipnetwork::NetworkSize`. -/
inductive NetworkSize where
  | V4 (size : Nat)
  | V6 (size : Nat)
deriving DecidableEq

/-- Models the external `ipnetwork` collaborator's `size()` method: the
number of addresses in the CIDR block, tagged by family. -/
def IpNetwork.size : IpNetwork → NetworkSize
  | .V4 _ p => .V4 (2 ^ (32 - p))
  | .V6 _ p => .V6 (2 ^ (128 - p))

/-- Whether the network is an IPv6 network. -/
def IpNetwork.isV6 : IpNetwork → Bool
  | .V4 _ _ => false
  | .V6 _ _ => true

/-- The IPv4 size of a network (meaningful on `V4` blocks only). -/
def IpNetwork.sizeV4 : IpNetwork → Nat
  | .V4 _ p => 2 ^ (32 - p)
  | .V6 _ _ => 0

/-- The body of the fold in `utils::compute_network_size`: add an IPv4
network's size to the running total; on an IPv6 network the process prints
an error and calls exit(1), modelled as an `Except.error`. -/
def compute_network_size_step (total_size : Nat) (ip_network : IpNetwork) :
    Except String Nat :=
  match ip_network.size with
  | NetworkSize.V4 ipv4_network_size => Except.ok (total_size + ipv4_network_size)
  | NetworkSize.V6 _ =>
      Except.error "IPv6 networks are not supported by the ARP protocol"

/-- Embeds `utils::compute_network_size`: folds the IPv4 sizes of all the
given networks into a total, aborting on the first IPv6 network. -/
def compute_network_size (ip_networks : List IpNetwork) : Except String Nat :=
  ip_networks.foldlM compute_network_size_step 0

/-- A network interface as supplied by the OS collaborator
(`pnet_datalink::NetworkInterface`): name, optional hardware address,
assigned IP networks, and up/loopback flags. -/
structure NetworkInterface where
  name : String
  mac : Option Nat
  ips : List IpNetwork
  up : Bool
  loopback : Bool
deriving DecidableEq

/-- Models `NetworkInterface::is_up`. -/
def NetworkInterface.is_up (i : NetworkInterface) : Bool := i.up

/-- Models `NetworkInterface::is_loopback`. -/
def NetworkInterface.is_loopback (i : NetworkInterface) : Bool := i.loopback

/-- Models `IpNetwork::is_ipv4` of the address assigned to an interface. -/
def IpNetwork.is_ipv4 : IpNetwork → Bool
  | .V4 _ _ => true
  | .V6 _ _ => false

/-- The closure passed to `find` in `utils::select_default_interface`: the
early `return false` paths of the Rust closure become nested
if-then-else. -/
def default_interface_check (interface : NetworkInterface) : Bool :=
  if interface.mac.isNone then
    false
  else if interface.ips.isEmpty || !interface.is_up || interface.is_loopback then
    false
  else if (interface.ips.find? (fun ip => ip.is_ipv4)).isNone then
    false
  else
    true

/-- Embeds `utils::select_default_interface`: the first interface that has
a hardware address, at least one IP, is up, is not loopback, and has an
IPv4 address. -/
def select_default_interface (interfaces : List NetworkInterface) :
    Option NetworkInterface :=
  interfaces.find? default_interface_check

/-- The conditions of claim C10, written as the claim states them. -/
def GoodInterface (i : NetworkInterface) : Prop :=
  i.mac.isSome = true ∧ i.ips ≠ [] ∧ i.up = true ∧ i.loopback = false ∧
    ∃ ip ∈ i.ips, ip.is_ipv4 = true

instance (i : NetworkInterface) : Decidable (GoodInterface i) := by
  unfold GoodInterface; infer_instance

lemma except_bind_ok {ε α β : Type} (a : α) (f : α → Except ε β) :
    (Except.ok a >>= f : Except ε β) = f a := rfl

lemma except_bind_error {ε α β : Type} (e : ε) (f : α → Except ε β) :
    (Except.error e >>= f : Except ε β) = Except.error e := rfl

lemma compute_network_size_foldlM (l : List IpNetwork) (a : Nat) :
    l.foldlM compute_network_size_step a =
      if l.any IpNetwork.isV6 then
        Except.error "IPv6 networks are not supported by the ARP protocol"
      else
        Except.ok (a + (l.map IpNetwork.sizeV4).sum) := by
  induction l generalizing a with
  | nil => simp [List.foldlM_nil, pure, Except.pure]
  | cons x xs ih =>
      cases x with
      | V4 addr p =>
          simp [List.foldlM_cons, compute_network_size_step, IpNetwork.size,
            IpNetwork.isV6, IpNetwork.sizeV4, except_bind_ok, ih,
            Nat.add_assoc]
      | V6 addr p =>
          simp [List.foldlM_cons, compute_network_size_step, IpNetwork.size,
            IpNetwork.isV6, except_bind_error]

/-- C5: if any supplied range is an IPv6 network, `compute_network_size`
aborts with a sizing error (the modelled `process::exit(1)` with the IPv6
message), and this abort happens during network-size computation, which the
entry point runs before any ARP request is sent; if all ranges are IPv4 it
returns the sum of the sizes of all ranges. -/
theorem compute_network_size_rejects_ipv6 (ip_networks : List IpNetwork) :
    compute_network_size ip_networks =
      if ip_networks.any IpNetwork.isV6 then
        Except.error "IPv6 networks are not supported by the ARP protocol"
      else
        Except.ok ((ip_networks.map IpNetwork.sizeV4).sum) := by
  unfold compute_network_size
  rw [compute_network_size_foldlM]
  simp

lemma default_interface_check_iff (i : NetworkInterface) :
    default_interface_check i = true ↔ GoodInterface i := by
  rcases i with ⟨name, mac, ips, up, lb⟩
  unfold default_interface_check GoodInterface
  cases mac <;> cases up <;> cases lb <;>
    simp [NetworkInterface.is_up, NetworkInterface.is_loopback,
      List.isEmpty_iff, Option.isNone_iff_eq_none, List.find?_eq_none,
      not_forall]

/-- C10: `select_default_interface` returns the first interface of the list
that has a hardware address, a nonempty IP list, is up, is not loopback and
has an IPv4 address; it returns `none` exactly when no interface satisfies
all of these conditions. -/
theorem select_default_interface_first_good (l : List NetworkInterface) :
    (∀ i, select_default_interface l = some i →
        GoodInterface i ∧
          ∃ l₁ l₂, l = l₁ ++ i :: l₂ ∧ ∀ j ∈ l₁, ¬ GoodInterface j) ∧
    (select_default_interface l = none ↔ ∀ j ∈ l, ¬ GoodInterface j) := by
  induction l with
  | nil =>
      refine ⟨fun i h => by simp [select_default_interface] at h, ?_⟩
      simp [select_default_interface]
  | cons x xs ih =>
      by_cases hx : default_interface_check x = true
      · have hfind : select_default_interface (x :: xs) = some x := by
          unfold select_default_interface
          exact List.find?_cons_of_pos xs hx
        refine ⟨fun i h => ?_, ?_⟩
        · rw [hfind] at h
          cases h
          exact ⟨(default_interface_check_iff x).mp hx, [], xs, rfl, by simp⟩
        · rw [hfind]
          simp only [reduceCtorEq, false_iff, not_forall]
          exact ⟨x, by simp, fun hcon => hcon ((default_interface_check_iff x).mp hx)⟩
      · have hfind : select_default_interface (x :: xs) =
            select_default_interface xs := by
          unfold select_default_interface
          exact List.find?_cons_of_neg xs hx
        have hxg : ¬ GoodInterface x := fun hcon =>
          hx ((default_interface_check_iff x).mpr hcon)
        refine ⟨fun i h => ?_, ?_⟩
        · rw [hfind] at h
          obtain ⟨hg, l₁, l₂, hl, hpre⟩ := ih.1 i h
          refine ⟨hg, x :: l₁, l₂, by simp [hl], ?_⟩
          intro j hj
          rcases List.mem_cons.mp hj with rfl | hj'
          · exact hxg
          · exact hpre j hj'
        · rw [hfind, ih.2]
          constructor
          · intro h j hj
            rcases List.mem_cons.mp hj with rfl | hj'
            · exact hxg
            · exact h j hj'
          · intro h j hj
            exact h j (by simp [hj])

/-- Witness for C10 at a concrete interface list: the loopback interface is
skipped and the second interface is returned first and satisfies every
condition of the claim. -/
theorem select_default_interface_first_good_witness :
    GoodInterface ⟨"eth0", some 1, [IpNetwork.V4 3232235777 24], true, false⟩ :=
  ((select_default_interface_first_good
      [⟨"lo", some 0, [IpNetwork.V4 2130706433 8], true, true⟩,
       ⟨"eth0", some 1, [IpNetwork.V4 3232235777 24], true, false⟩]).1
    ⟨"eth0", some 1, [IpNetwork.V4 3232235777 24], true, false⟩ (by decide)).1

/-- Modelled from the spec: the fixed on-wire size in bytes of one
Ethernet+ARP request frame (the crate's network module is not under
`src/`; the spec's estimator example fixes this constant at 42). -/
def FRAME_SIZE_BYTES : Nat := 42

/-- Modelled from the spec: the conservative default send interval applied
when neither an interval nor a bandwidth is requested (its numeric value is
not fixed by the spec). -/
def DEFAULT_INTERVAL_MS : Nat := 10

/-- Modelled from the spec: `ScanEstimation` — derived timing data of a
scan: per-packet interval, total expected duration, effective bandwidth in
bytes per second. -/
structure ScanEstimation where
  interval_ms : Nat
  duration_ms : Nat
  bandwidth : Nat
deriving DecidableEq

/-- Modelled from the spec: the Scan Estimator (the crate's network module
is not under `src/`).  Given the target count and the operator constraints
(an explicit interval, or a target bandwidth, or neither), compute the
interval, the total duration `target_count * interval_ms`, and the
effective bandwidth `FRAME_SIZE_BYTES * 1000 / interval_ms`; the
bandwidth-constrained interval uses ceiling division. -/
def compute_scan_estimation (target_count : Nat) (interval_opt : Option Nat)
    (bandwidth_opt : Option Nat) : ScanEstimation :=
  let interval_ms : Nat :=
    match interval_opt with
    | some interval_ms => interval_ms
    | none =>
      match bandwidth_opt with
      | some bandwidth => (FRAME_SIZE_BYTES * 1000 + bandwidth - 1) / bandwidth
      | none => DEFAULT_INTERVAL_MS
  { interval_ms := interval_ms,
    duration_ms := target_count * interval_ms,
    bandwidth := FRAME_SIZE_BYTES * 1000 / interval_ms }

/-- C3: on the explicit-interval path the estimator returns exactly
`duration_ms = target_count * interval_ms` and
`bandwidth = FRAME_SIZE_BYTES * 1000 / interval_ms`, for any bandwidth
hint. -/
theorem compute_scan_estimation_explicit_interval (target_count interval_ms : Nat)
    (bandwidth_opt : Option Nat) :
    (compute_scan_estimation target_count (some interval_ms) bandwidth_opt).duration_ms
        = target_count * interval_ms ∧
    (compute_scan_estimation target_count (some interval_ms) bandwidth_opt).bandwidth
        = FRAME_SIZE_BYTES * 1000 / interval_ms ∧
    (compute_scan_estimation target_count (some interval_ms) bandwidth_opt).interval_ms
        = interval_ms :=
  ⟨rfl, rfl, rfl⟩

/-- C4: on the bandwidth-constrained path the computed interval is the
ceiling of `FRAME_SIZE_BYTES * 1000 / bandwidth`: it is the least `k` with
`bandwidth * k ≥ FRAME_SIZE_BYTES * 1000`; in particular frame size 42 with
bandwidth 42000 bytes/s yields an interval of 1 ms. -/
theorem compute_scan_estimation_bandwidth_ceil (target_count bandwidth : Nat)
    (hb : 0 < bandwidth) :
    (FRAME_SIZE_BYTES * 1000 ≤
        bandwidth * (compute_scan_estimation target_count none (some bandwidth)).interval_ms) ∧
    (∀ k, FRAME_SIZE_BYTES * 1000 ≤ bandwidth * k →
        (compute_scan_estimation target_count none (some bandwidth)).interval_ms ≤ k) ∧
    (compute_scan_estimation 254 none (some 42000)).interval_ms = 1 := by
  have hiv : (compute_scan_estimation target_count none (some bandwidth)).interval_ms
      = (FRAME_SIZE_BYTES * 1000 + bandwidth - 1) / bandwidth := rfl
  have hdm := Nat.div_add_mod (FRAME_SIZE_BYTES * 1000 + bandwidth - 1) bandwidth
  have hmlt := Nat.mod_lt (FRAME_SIZE_BYTES * 1000 + bandwidth - 1) hb
  refine ⟨?_, ?_, by decide⟩
  · rw [hiv]
    have h42 : 0 < FRAME_SIZE_BYTES * 1000 := by decide
    set q := (FRAME_SIZE_BYTES * 1000 + bandwidth - 1) / bandwidth with hq
    set r := (FRAME_SIZE_BYTES * 1000 + bandwidth - 1) % bandwidth with hr
    set M := bandwidth * q with hM
    omega
  · intro k hk
    rw [hiv]
    by_contra hcon
    push_neg at hcon
    have hk1 : k + 1 ≤ (FRAME_SIZE_BYTES * 1000 + bandwidth - 1) / bandwidth := hcon
    have hmul : bandwidth * (k + 1) ≤
        bandwidth * ((FRAME_SIZE_BYTES * 1000 + bandwidth - 1) / bandwidth) :=
      Nat.mul_le_mul_left bandwidth hk1
    have h42 : 0 < FRAME_SIZE_BYTES * 1000 := by decide
    set q := (FRAME_SIZE_BYTES * 1000 + bandwidth - 1) / bandwidth with hq
    set r := (FRAME_SIZE_BYTES * 1000 + bandwidth - 1) % bandwidth with hr
    set M := bandwidth * q with hM
    set A := bandwidth * k with hA
    have hdistrib : bandwidth * (k + 1) = A + bandwidth := by
      rw [hA, Nat.mul_add, Nat.mul_one]
    omega

/-- Witness for C4: at bandwidth 42000 bytes/s the hypothesis holds and the
computed interval is exactly 1 ms. -/
theorem compute_scan_estimation_bandwidth_ceil_witness :
    (compute_scan_estimation 254 none (some 42000)).interval_ms = 1 :=
  (compute_scan_estimation_bandwidth_ceil 254 42000 (by decide)).2.2

/-- Modelled from the spec: `TargetDetails` (declared in the crate's
network module, which is not under `src/`) — one discovered host: IPv4
address, hardware address, optional hostname, optional vendor name. -/
structure TargetDetails where
  ipv4 : Nat
  mac : Nat
  hostname : Option String
  vendor : Option String
deriving DecidableEq

/-- Modelled from the spec: `ResponseSummary` (declared in the crate's
network module, which is not under `src/`) — scan-wide counters. -/
structure ResponseSummary where
  packet_count : Nat
  arp_count : Nat
  duration_ms : Nat
deriving DecidableEq

/-- Embeds `utils::SerializableResultItem`. -/
structure SerializableResultItem where
  ipv4 : String
  mac : String
  hostname : String
  vendor : String
deriving DecidableEq

/-- Embeds `utils::SerializableGlobalResult`. -/
structure SerializableGlobalResult where
  packet_count : Nat
  arp_count : Nat
  duration_ms : Nat
  results : List SerializableResultItem
deriving DecidableEq

/-- Models the `Display` rendering of `Ipv4Addr`: dotted-quad decimal. -/
def ipv4ToString (a : Nat) : String :=
  toString (a / 16777216 % 256) ++ "." ++ toString (a / 65536 % 256) ++ "." ++
    toString (a / 256 % 256) ++ "." ++ toString (a % 256)

/-- One lowercase hexadecimal digit. -/
def hexDigit (n : Nat) : Char :=
  if n < 10 then Char.ofNat (48 + n) else Char.ofNat (87 + n)

/-- One byte as two lowercase hexadecimal digits. -/
def hexByte (n : Nat) : String :=
  String.mk [hexDigit (n / 16 % 16), hexDigit (n % 16)]

/-- Models the `Display` rendering of `MacAddr`: six zero-padded lowercase
hex bytes separated by colons. -/
def macToString (m : Nat) : String :=
  String.intercalate ":" ([5, 4, 3, 2, 1, 0].map (fun i => hexByte (m / 256 ^ i % 256)))

/-- Embeds `utils::get_serializable_result`: counters are copied and each
target is rendered to strings, absent hostname/vendor becoming the empty
string. -/
def get_serializable_result (response_summary : ResponseSummary)
    (target_details : List TargetDetails) : SerializableGlobalResult :=
  { packet_count := response_summary.packet_count,
    arp_count := response_summary.arp_count,
    duration_ms := response_summary.duration_ms,
    results := target_details.map (fun detail =>
      { ipv4 := ipv4ToString detail.ipv4,
        mac := macToString detail.mac,
        hostname := detail.hostname.getD "",
        vendor := detail.vendor.getD "" }) }

/-- Models the external serde_json collaborator: escape of one character in
a JSON string literal. -/
def jsonEscapeChar (c : Char) : String :=
  if c = '"' then "\\\""
  else if c = '\\' then "\\\\"
  else if c.toNat < 32 then "\\u00" ++ hexByte c.toNat
  else String.singleton c

/-- Models the external serde_json collaborator: a JSON string literal. -/
def jsonString (s : String) : String :=
  "\"" ++ String.join (s.data.map jsonEscapeChar) ++ "\""

/-- Models the external serde_json collaborator: one result item, fields in
declaration order. -/
def jsonItem (r : SerializableResultItem) : String :=
  "\x7b\"ipv4\":" ++ jsonString r.ipv4 ++ ",\"mac\":" ++ jsonString r.mac ++
    ",\"hostname\":" ++ jsonString r.hostname ++
    ",\"vendor\":" ++ jsonString r.vendor ++ "\x7d"

/-- Models the external serde_json collaborator: the whole exported
document, fields in declaration order. -/
def jsonEncode (g : SerializableGlobalResult) : String :=
  "\x7b\"packet_count\":" ++ toString g.packet_count ++
    ",\"arp_count\":" ++ toString g.arp_count ++
    ",\"duration_ms\":" ++ toString g.duration_ms ++
    ",\"results\":[" ++ String.intercalate "," (g.results.map jsonItem) ++
    "]\x7d"

/-- Models the external serde_yaml collaborator: one result item as a YAML
sequence element. -/
def yamlItem (r : SerializableResultItem) : String :=
  "- ipv4: " ++ r.ipv4 ++ "\n  mac: " ++ r.mac ++
    "\n  hostname: " ++ r.hostname ++ "\n  vendor: " ++ r.vendor ++ "\n"

/-- Models the external serde_yaml collaborator: the whole exported
document. -/
def yamlEncode (g : SerializableGlobalResult) : String :=
  "---\npacket_count: " ++ toString g.packet_count ++
    "\narp_count: " ++ toString g.arp_count ++
    "\nduration_ms: " ++ toString g.duration_ms ++
    "\nresults:\n" ++ String.join (g.results.map yamlItem)

/-- Models the external csv collaborator: a field is quoted when it holds a
separator, a quote or a line break. -/
def csvField (s : String) : String :=
  if s.data.any (fun c => c == ',' || c == '"' || c == '\n' || c == '\r') then
    "\"" ++ String.join (s.data.map (fun c =>
      if c = '"' then "\"\"" else String.singleton c)) ++ "\""
  else s

/-- Models the external csv collaborator: one record, fields in declaration
order. -/
def csvRow (r : SerializableResultItem) : String :=
  csvField r.ipv4 ++ "," ++ csvField r.mac ++ "," ++ csvField r.hostname ++
    "," ++ csvField r.vendor ++ "\n"

/-- Models the external csv collaborator: the header row is written before
the first record, so an empty record list produces empty output. -/
def csvEncode (results : List SerializableResultItem) : String :=
  match results with
  | [] => ""
  | _ => "ipv4,mac,hostname,vendor\n" ++ String.join (results.map csvRow)

/-- Embeds `target_details.sort_by_key(|item| item.ipv4)`: a stable sort by
the IPv4 key. -/
def sortTargets (target_details : List TargetDetails) : List TargetDetails :=
  target_details.mergeSort (fun a b => decide (a.ipv4 ≤ b.ipv4))

/-- Embeds `utils::export_to_json`: sort by IPv4, build the serializable
result, serialize. -/
def export_to_json (response_summary : ResponseSummary)
    (target_details : List TargetDetails) : String :=
  jsonEncode (get_serializable_result response_summary (sortTargets target_details))

/-- Embeds `utils::export_to_yaml`: sort by IPv4, build the serializable
result, serialize. -/
def export_to_yaml (response_summary : ResponseSummary)
    (target_details : List TargetDetails) : String :=
  yamlEncode (get_serializable_result response_summary (sortTargets target_details))

/-- Embeds `utils::export_to_csv`: sort by IPv4, build the serializable
result, then write only the per-host records to the CSV writer (the
summary counters of the global result are never written). -/
def export_to_csv (response_summary : ResponseSummary)
    (target_details : List TargetDetails) : String :=
  csvEncode (get_serializable_result response_summary (sortTargets target_details)).results

lemma targetLe_trans (a b c : TargetDetails)
    (hab : (fun a b : TargetDetails => decide (a.ipv4 ≤ b.ipv4)) a b = true)
    (hbc : (fun a b : TargetDetails => decide (a.ipv4 ≤ b.ipv4)) b c = true) :
    (fun a b : TargetDetails => decide (a.ipv4 ≤ b.ipv4)) a c = true := by
  simp at hab hbc ⊢
  exact le_trans hab hbc

lemma targetLe_total (a b : TargetDetails) :
    ((fun a b : TargetDetails => decide (a.ipv4 ≤ b.ipv4)) a b
      || (fun a b : TargetDetails => decide (a.ipv4 ≤ b.ipv4)) b a) = true := by
  simp
  exact le_total a.ipv4 b.ipv4

lemma sortTargets_sorted (t : List TargetDetails) :
    List.Sorted (fun a b : TargetDetails => a.ipv4 ≤ b.ipv4) (sortTargets t) := by
  have h := List.sorted_mergeSort targetLe_trans targetLe_total t
  exact h.imp (fun hd => by simpa using hd)

/-- C7: every export is a pure function of its input — exporting the same
summary and target list twice yields byte-identical strings for JSON, YAML
and CSV — and the entries serialized by each format are the target list
sorted by IPv4 ascending (a sorted permutation of the input). -/
theorem export_idempotent_and_sorted (response_summary : ResponseSummary)
    (target_details : List TargetDetails) :
    export_to_json response_summary target_details
        = export_to_json response_summary target_details ∧
    export_to_yaml response_summary target_details
        = export_to_yaml response_summary target_details ∧
    export_to_csv response_summary target_details
        = export_to_csv response_summary target_details ∧
    export_to_json response_summary target_details
        = jsonEncode (get_serializable_result response_summary (sortTargets target_details)) ∧
    export_to_yaml response_summary target_details
        = yamlEncode (get_serializable_result response_summary (sortTargets target_details)) ∧
    export_to_csv response_summary target_details
        = csvEncode (get_serializable_result response_summary (sortTargets target_details)).results ∧
    List.Sorted (fun a b : TargetDetails => a.ipv4 ≤ b.ipv4) (sortTargets target_details) ∧
    (sortTargets target_details).Perm target_details :=
  ⟨rfl, rfl, rfl, rfl, rfl, rfl, sortTargets_sorted target_details,
    List.mergeSort_perm target_details _⟩

/-- Counterexample to C8: the CSV export does not carry the summary
counters — two summaries with different packet/ARP/duration counters
produce byte-identical (here empty) CSV output. -/
theorem export_to_csv_omits_summary_counterexample :
    export_to_csv ⟨5, 3, 1000⟩ [] = export_to_csv ⟨0, 0, 0⟩ [] ∧
    export_to_csv ⟨5, 3, 1000⟩ [] = "" ∧
    (5 : Nat) ≠ 0 := by
  refine ⟨?_, ?_, by decide⟩ <;>
    simp [export_to_csv, sortTargets, List.mergeSort_nil,
      get_serializable_result, csvEncode]

/-- C8 as amended: the JSON and YAML exports carry, for each discovered
host, the IPv4, hardware-address, hostname-or-absent and vendor-or-absent
fields plus the summary packet, ARP and duration counters; the CSV export
carries only the per-host fields, not the summary counters. -/
theorem export_fields_carried (response_summary : ResponseSummary)
    (target_details : List TargetDetails) :
    (get_serializable_result response_summary (sortTargets target_details)).packet_count
        = response_summary.packet_count ∧
    (get_serializable_result response_summary (sortTargets target_details)).arp_count
        = response_summary.arp_count ∧
    (get_serializable_result response_summary (sortTargets target_details)).duration_ms
        = response_summary.duration_ms ∧
    (get_serializable_result response_summary (sortTargets target_details)).results
        = (sortTargets target_details).map (fun detail =>
            ⟨ipv4ToString detail.ipv4, macToString detail.mac,
              detail.hostname.getD "", detail.vendor.getD ""⟩) ∧
    export_to_json response_summary target_details
        = jsonEncode (get_serializable_result response_summary (sortTargets target_details)) ∧
    export_to_yaml response_summary target_details
        = yamlEncode (get_serializable_result response_summary (sortTargets target_details)) ∧
    export_to_csv response_summary target_details
        = csvEncode (get_serializable_result response_summary (sortTargets target_details)).results ∧
    jsonEncode (get_serializable_result ⟨5, 3, 1000⟩ [])
        ≠ jsonEncode (get_serializable_result ⟨0, 0, 0⟩ []) ∧
    yamlEncode (get_serializable_result ⟨5, 3, 1000⟩ [])
        ≠ yamlEncode (get_serializable_result ⟨0, 0, 0⟩ []) :=
  ⟨rfl, rfl, rfl, rfl, rfl, rfl, rfl, by decide, by decide⟩

/-- Modelled from the spec: `AddressRange` — an IPv4 network block, base
address plus prefix length, immutable once parsed. -/
structure AddressRange where
  base : Nat
  prefixLen : Nat
deriving DecidableEq

/-- The number of addresses in the range's CIDR block. -/
def AddressRange.size (r : AddressRange) : Nat := 2 ^ (32 - r.prefixLen)

/-- The network (lowest) address of the block: the base with host bits
masked off. -/
def AddressRange.networkAddress (r : AddressRange) : Nat :=
  r.base / r.size * r.size

/-- Modelled from the spec: one range's full enumerable address set,
network and broadcast addresses included, lowest to highest. -/
def AddressRange.addresses (r : AddressRange) : List Nat :=
  (List.range r.size).map (fun i => r.networkAddress + i)

/-- Modelled from the spec: the AddressSpace Iterator in sequential mode
(the crate's network module is not under `src/`) — concatenates the ranges
in the order given, lowest to highest within each range. -/
def sequentialPass (ranges : List AddressRange) : List Nat :=
  (ranges.map AddressRange.addresses).flatten

/-- Modelled from the spec: a randomized pass is a uniformly shuffled
permutation of the sequential pass; the shuffle is modelled as an arbitrary
permutation of the same list. -/
def IsRandomizedPass (ranges : List AddressRange) (pass : List Nat) : Prop :=
  pass.Perm (sequentialPass ranges)

instance (ranges : List AddressRange) (pass : List Nat) :
    Decidable (IsRandomizedPass ranges pass) := by
  unfold IsRandomizedPass; infer_instance

/-- Whether an address lies inside the range's block. -/
def AddressRange.covers (r : AddressRange) (a : Nat) : Bool :=
  decide (r.networkAddress ≤ a) && decide (a < r.networkAddress + r.size)

lemma addresses_nodup (r : AddressRange) : r.addresses.Nodup :=
  List.Nodup.map (fun i j h => by omega) (List.nodup_range _)

lemma mem_addresses_iff (r : AddressRange) (a : Nat) :
    a ∈ r.addresses ↔ r.covers a = true := by
  unfold AddressRange.addresses AddressRange.covers
  simp only [List.mem_map, List.mem_range, Bool.and_eq_true, decide_eq_true_eq]
  constructor
  · rintro ⟨i, hi, rfl⟩
    omega
  · rintro ⟨h1, h2⟩
    exact ⟨a - r.networkAddress, by omega, by omega⟩

lemma addresses_count (r : AddressRange) (a : Nat) :
    r.addresses.count a = if r.covers a then 1 else 0 := by
  by_cases h : r.covers a = true
  · rw [if_pos h]
    exact List.count_eq_one_of_mem (addresses_nodup r) ((mem_addresses_iff r a).mpr h)
  · rw [if_neg h]
    exact List.count_eq_zero_of_not_mem (fun hmem =>
      h ((mem_addresses_iff r a).mp hmem))

lemma sequentialPass_count (ranges : List AddressRange) (a : Nat) :
    (sequentialPass ranges).count a = ranges.countP (fun r => r.covers a) := by
  induction ranges with
  | nil => simp [sequentialPass]
  | cons r rs ih =>
      have hcons : sequentialPass (r :: rs) = r.addresses ++ sequentialPass rs := by
        simp [sequentialPass]
      rw [hcons, List.count_append, addresses_count, ih, List.countP_cons]
      omega

lemma countP_covers_le_one (ranges : List AddressRange) (a : Nat)
    (hd : ranges.Pairwise
      (fun r₁ r₂ => ∀ x, ¬(r₁.covers x = true ∧ r₂.covers x = true))) :
    ranges.countP (fun r => r.covers a) ≤ 1 := by
  induction ranges with
  | nil => simp
  | cons r rs ih =>
      rw [List.countP_cons]
      rcases List.pairwise_cons.mp hd with ⟨hr, hrs⟩
      by_cases h : r.covers a = true
      · have hz : rs.countP (fun r => r.covers a) = 0 :=
          List.countP_eq_zero.mpr (fun r' hr' hc => hr r' hr' a ⟨h, hc⟩)
        simp [hz, h]
      · simp [h, ih hrs]

/-- Counterexample to C1: with two overlapping (here identical) /32 ranges
the sequential pass yields the address 10.0.0.1 twice in one pass, not
exactly once as the claim states for every list of AddressRanges. -/
theorem sequentialPass_overlap_counterexample :
    (sequentialPass [⟨167772161, 32⟩, ⟨167772161, 32⟩]).count 167772161 = 2 ∧
    167772161 ∈ sequentialPass [⟨167772161, 32⟩, ⟨167772161, 32⟩] ∧
    (2 : Nat) ≠ 1 := by decide

/-- C1 as amended: one full pass of the iterator yields each IPv4 address
exactly as many times as there are ranges whose block covers it — the
multiset sum of the ranges — in both sequential and randomized mode (a
randomized pass is a permutation of the sequential pass, so the counts
agree); in particular, when the ranges are pairwise disjoint, every address
of the union is yielded exactly once per pass in either mode. -/
theorem pass_yields_ranges_multiset (ranges : List AddressRange)
    (pass : List Nat) (h : IsRandomizedPass ranges pass) (a : Nat) :
    (sequentialPass ranges).count a = ranges.countP (fun r => r.covers a) ∧
    pass.count a = ranges.countP (fun r => r.covers a) ∧
    (ranges.Pairwise
        (fun r₁ r₂ => ∀ x, ¬(r₁.covers x = true ∧ r₂.covers x = true)) →
      a ∈ sequentialPass ranges →
      (sequentialPass ranges).count a = 1 ∧ pass.count a = 1) := by
  have hseq := sequentialPass_count ranges a
  have hpass : pass.count a = (sequentialPass ranges).count a :=
    List.Perm.count_eq h a
  refine ⟨hseq, hpass.trans hseq, fun hd hmem => ?_⟩
  have hge : 0 < (sequentialPass ranges).count a := List.count_pos_iff.mpr hmem
  have hle := countP_covers_le_one ranges a hd
  constructor
  · omega
  · rw [hpass]; omega

/-- Witness for C1's amended statement: over the single /31 range at base 0
the sequential pass is [0, 1] and the shuffled pass [1, 0] is a
permutation of it; the address 0 is yielded exactly once in each mode. -/
theorem pass_yields_ranges_multiset_witness :
    (sequentialPass [⟨0, 31⟩]).count 0 = 1 ∧ ([1, 0] : List Nat).count 0 = 1 :=
  (pass_yields_ranges_multiset [⟨0, 31⟩] [1, 0] (by decide) 0).2.2
    (List.pairwise_singleton _ _) (by decide)

/-- Modelled from the spec: one decoded, accepted ARP reply — the sender
protocol address (the discovered host's IPv4) and the sender hardware
address. -/
structure ArpReply where
  sender_ipv4 : Nat
  sender_mac : Nat
deriving DecidableEq

/-- Modelled from the spec: the Response Collector recording one accepted
ARP reply into the accumulated TargetDetails (the collector lives in the
crate's network module, which is not under `src/`).  An IPv4 address not
recorded yet gets a new entry with best-effort hostname and vendor
resolution; an already-recorded IPv4 leaves the list untouched (first
reply wins). -/
def recordReply (resolveHostname : Nat → Option String)
    (resolveVendor : Nat → Option String)
    (targets : List TargetDetails) (reply : ArpReply) : List TargetDetails :=
  if targets.any (fun details => details.ipv4 == reply.sender_ipv4) then
    targets
  else
    targets ++ [⟨reply.sender_ipv4, reply.sender_mac,
      resolveHostname reply.sender_ipv4, resolveVendor reply.sender_mac⟩]

/-- Modelled from the spec: the TargetDetails accumulated by the Response
Collector over a whole sequence of accepted inbound ARP replies. -/
def recordReplies (resolveHostname : Nat → Option String)
    (resolveVendor : Nat → Option String) (replies : List ArpReply) :
    List TargetDetails :=
  replies.foldl (recordReply resolveHostname resolveVendor) []

lemma recordReply_nodup (resolveHostname resolveVendor : Nat → Option String)
    (targets : List TargetDetails) (reply : ArpReply)
    (h : (targets.map TargetDetails.ipv4).Nodup) :
    ((recordReply resolveHostname resolveVendor targets reply).map
      TargetDetails.ipv4).Nodup := by
  unfold recordReply
  by_cases hc : targets.any (fun details => details.ipv4 == reply.sender_ipv4) = true
  · rw [if_pos hc]; exact h
  · rw [if_neg hc, List.map_append, List.nodup_append]
    refine ⟨h, by simp, ?_⟩
    intro x hx hx'
    simp at hx'
    subst hx'
    rcases List.mem_map.mp hx with ⟨d, hd, hdx⟩
    exact hc (List.any_eq_true.mpr ⟨d, hd, by simp [hdx]⟩)

lemma recordReplies_go_nodup (resolveHostname resolveVendor : Nat → Option String)
    (replies : List ArpReply) :
    ∀ targets : List TargetDetails, (targets.map TargetDetails.ipv4).Nodup →
      ((replies.foldl (recordReply resolveHostname resolveVendor)
          targets).map TargetDetails.ipv4).Nodup := by
  induction replies with
  | nil => intro targets h; simpa using h
  | cons reply rest ih =>
      intro targets h
      exact ih _ (recordReply_nodup resolveHostname resolveVendor targets reply h)

/-- C2: over any sequence of inbound ARP replies, each IPv4 address appears
at most once in the resulting TargetDetails (the list of recorded IPv4 keys
is duplicate-free), and a further reply carrying an already-recorded IPv4 —
even with a different hardware address — leaves the accumulated list
entirely unchanged: no second entry and no overwrite of the first entry's
resolved fields. -/
theorem collector_dedup_by_ipv4 (resolveHostname resolveVendor : Nat → Option String)
    (replies : List ArpReply) :
    ((recordReplies resolveHostname resolveVendor replies).map
        TargetDetails.ipv4).Nodup ∧
    ∀ (targets : List TargetDetails) (reply : ArpReply),
      (∃ d ∈ targets, d.ipv4 = reply.sender_ipv4) →
      recordReply resolveHostname resolveVendor targets reply = targets := by
  constructor
  · exact recordReplies_go_nodup resolveHostname resolveVendor replies [] (by simp)
  · intro targets reply hmem
    obtain ⟨d, hd, hdx⟩ := hmem
    unfold recordReply
    rw [if_pos (List.any_eq_true.mpr ⟨d, hd, by simp [hdx]⟩)]

/-- Witness for C2: with one entry for IPv4 5 already recorded, a second
reply from IPv4 5 with a different hardware address changes nothing. -/
theorem collector_dedup_by_ipv4_witness :
    recordReply (fun _ => none) (fun _ => none) [⟨5, 1, none, none⟩] ⟨5, 2⟩ =
      [⟨5, 1, none, none⟩] :=
  (collector_dedup_by_ipv4 (fun _ => none) (fun _ => none) []).2
    [⟨5, 1, none, none⟩] ⟨5, 2⟩ (by decide)

/-- The ARP ethertype, 0x0806. -/
def ETHERTYPE_ARP : Nat := 2054

/-- The 802.1Q VLAN tag ethertype, 0x8100. -/
def ETHERTYPE_VLAN : Nat := 33024

/-- The ARP operation code of a reply. -/
def ARP_OP_REPLY : Nat := 2

/-- Modelled from the spec: a parsed ARP payload — hardware/protocol type
fields, operation, sender hardware and protocol addresses. -/
structure ArpPayload where
  hardware_type : Nat
  protocol_type : Nat
  operation : Nat
  sender_mac : Nat
  sender_ipv4 : Nat
deriving DecidableEq

/-- Modelled from the spec: an inbound link-layer frame as handed to the
Response Collector — outer ethertype, the inner ethertype when an 802.1Q
tag is present, and the ARP payload when parsing succeeds (`none` for a
truncated or malformed payload). -/
structure EthernetFrame where
  ethertype : Nat
  vlan_inner_ethertype : Option Nat
  arp_payload : Option ArpPayload
deriving DecidableEq

/-- Modelled from the spec: the ethertype after optional VLAN tag
unwrapping. -/
def effectiveEthertype (frame : EthernetFrame) : Nat :=
  if frame.ethertype = ETHERTYPE_VLAN then
    frame.vlan_inner_ethertype.getD frame.ethertype
  else
    frame.ethertype

/-- Modelled from the spec: the Response Collector's mutable state — the
total-received counter, the ARP-accepted counter and the accumulated
targets. -/
structure CollectorState where
  packet_count : Nat
  arp_count : Nat
  targets : List TargetDetails
deriving DecidableEq

/-- Modelled from the spec: the per-frame step of the Response Collector —
increment the total-received counter; discard unless the ethertype (after
optional VLAN unwrap) is ARP, the operation is reply and the hardware and
protocol type fields match expectations; otherwise increment the
ARP-accepted counter and record the reply. -/
def process_frame (expected_hardware_type expected_protocol_type : Nat)
    (resolveHostname resolveVendor : Nat → Option String)
    (st : CollectorState) (frame : EthernetFrame) : CollectorState :=
  let st1 : CollectorState := { st with packet_count := st.packet_count + 1 }
  if effectiveEthertype frame ≠ ETHERTYPE_ARP then
    st1
  else
    match frame.arp_payload with
    | none => st1
    | some arp =>
      if arp.operation ≠ ARP_OP_REPLY then
        st1
      else if arp.hardware_type = expected_hardware_type ∧
          arp.protocol_type = expected_protocol_type then
        { st1 with
          arp_count := st1.arp_count + 1,
          targets := recordReply resolveHostname resolveVendor st1.targets
            ⟨arp.sender_ipv4, arp.sender_mac⟩ }
      else
        st1

/-- C6: every processed inbound frame increments the total-received
counter by one, and a frame whose ethertype (after optional VLAN tag
unwrapping) is not ARP is discarded: the ARP-accepted counter and the
recorded targets are left unchanged. -/
theorem process_frame_counts_and_filters
    (expected_hardware_type expected_protocol_type : Nat)
    (resolveHostname resolveVendor : Nat → Option String)
    (st : CollectorState) (frame : EthernetFrame) :
    (process_frame expected_hardware_type expected_protocol_type
        resolveHostname resolveVendor st frame).packet_count
      = st.packet_count + 1 ∧
    (effectiveEthertype frame ≠ ETHERTYPE_ARP →
      (process_frame expected_hardware_type expected_protocol_type
          resolveHostname resolveVendor st frame).arp_count = st.arp_count ∧
      (process_frame expected_hardware_type expected_protocol_type
          resolveHostname resolveVendor st frame).targets = st.targets) := by
  refine ⟨?_, fun h => ?_⟩
  · simp only [process_frame]
    split
    · rfl
    · split
      · rfl
      · split
        · rfl
        · split
          · rfl
          · rfl
  · simp only [process_frame]
    rw [if_pos h]
    exact ⟨rfl, rfl⟩

/-- Witness for C6 at a concrete IPv4 (0x0800) frame: the total-received
counter becomes 1 while the ARP counter and targets stay empty. -/
theorem process_frame_counts_and_filters_witness :
    (process_frame 1 2048 (fun _ => none) (fun _ => none)
        ⟨0, 0, []⟩ ⟨2048, none, none⟩).arp_count = 0 ∧
    (process_frame 1 2048 (fun _ => none) (fun _ => none)
        ⟨0, 0, []⟩ ⟨2048, none, none⟩).targets = [] :=
  (process_frame_counts_and_filters 1 2048 (fun _ => none) (fun _ => none)
    ⟨0, 0, []⟩ ⟨2048, none, none⟩).2 (by decide)

/-- An observable action of the coordinator thread in `main.rs`.  `send`
and `sleepTick` carry the index of the flag load that guarded them; the
flag loads of one run are numbered consecutively. -/
inductive CoordEvent where
  | send (checkIdx : Nat) (target : Nat)
  | sleepTick (checkIdx : Nat)
  | setStop
  | joinCollector
deriving DecidableEq

/-- Embeds the inner target loop of `main.rs` (lines 186-218): before every
send the reached-timeout flag is loaded once; a set flag breaks out of the
pass, otherwise the ARP request for the current target is sent.  Returns
the emitted events and the next flag-load index. -/
def sendPass (flag : Nat → Bool) (targets : List Nat) (c : Nat) :
    List CoordEvent × Nat :=
  match targets with
  | [] => ([], c)
  | t :: rest =>
    if flag c then
      ([], c + 1)
    else
      let next := sendPass flag rest (c + 1)
      (CoordEvent.send c t :: next.1, next.2)

/-- Embeds the retry loop of `main.rs` (lines 179-219): `retry_count`
passes over the address space, each pass preceded by its own flag load
that breaks out of the retry loop when the flag is set. -/
def sendPasses (flag : Nat → Bool) (retry_count : Nat) (targets : List Nat)
    (c : Nat) : List CoordEvent × Nat :=
  match retry_count with
  | 0 => ([], c)
  | r + 1 =>
    if flag c then
      ([], c + 1)
    else
      let p := sendPass flag targets (c + 1)
      let rest := sendPasses flag r targets p.2
      (p.1 ++ rest.1, rest.2)

/-- Embeds the bounded wait of `main.rs` (lines 232-236): sleep in 100 ms
increments while the flag is unset and the timeout has not elapsed;
`remaining_ms` is the timeout minus the milliseconds already slept. -/
def waitLoop (flag : Nat → Bool) (remaining_ms : Nat) (c : Nat) :
    List CoordEvent × Nat :=
  if flag c then
    ([], c + 1)
  else if h100 : 0 < remaining_ms then
    let rest := waitLoop flag (remaining_ms - 100) (c + 1)
    (CoordEvent.sleepTick c :: rest.1, rest.2)
  else
    ([], c + 1)
termination_by remaining_ms
decreasing_by omega

/-- Embeds the scan tail of `main` (lines 179-242): the retry send passes,
then the bounded wait, then the store of the stop signal, then the join of
the collector thread. -/
def coordinatorTrace (flag : Nat → Bool) (retry_count : Nat)
    (targets : List Nat) (timeout_ms : Nat) : List CoordEvent :=
  let sends := sendPasses flag retry_count targets 0
  let waits := waitLoop flag timeout_ms sends.2
  sends.1 ++ waits.1 ++ [CoordEvent.setStop, CoordEvent.joinCollector]

lemma sendPass_send_flag_false (flag : Nat → Bool) (targets : List Nat) :
    ∀ c i t, CoordEvent.send i t ∈ (sendPass flag targets c).1 →
      flag i = false := by
  induction targets with
  | nil => intro c i t h; simp [sendPass] at h
  | cons x rest ih =>
      intro c i t h
      by_cases hf : flag c = true
      · simp [sendPass, hf] at h
      · simp [sendPass, hf] at h
        rcases h with ⟨rfl, rfl⟩ | h
        · simpa using hf
        · exact ih (c + 1) i t h

lemma sendPass_no_sleep (flag : Nat → Bool) (targets : List Nat) :
    ∀ c i, CoordEvent.sleepTick i ∉ (sendPass flag targets c).1 := by
  induction targets with
  | nil => intro c i h; simp [sendPass] at h
  | cons x rest ih =>
      intro c i h
      by_cases hf : flag c = true
      · simp [sendPass, hf] at h
      · simp [sendPass, hf] at h
        exact ih (c + 1) i h

lemma sendPasses_send_flag_false (flag : Nat → Bool) (targets : List Nat)
    (retry_count : Nat) :
    ∀ c i t, CoordEvent.send i t ∈ (sendPasses flag retry_count targets c).1 →
      flag i = false := by
  induction retry_count with
  | zero => intro c i t h; simp [sendPasses] at h
  | succ r ih =>
      intro c i t h
      by_cases hf : flag c = true
      · simp [sendPasses, hf] at h
      · simp [sendPasses, hf, List.mem_append] at h
        rcases h with h | h
        · exact sendPass_send_flag_false flag targets (c + 1) i t h
        · exact ih _ i t h

lemma sendPasses_no_sleep (flag : Nat → Bool) (targets : List Nat)
    (retry_count : Nat) :
    ∀ c i, CoordEvent.sleepTick i ∉ (sendPasses flag retry_count targets c).1 := by
  induction retry_count with
  | zero => intro c i h; simp [sendPasses] at h
  | succ r ih =>
      intro c i h
      by_cases hf : flag c = true
      · simp [sendPasses, hf] at h
      · simp [sendPasses, hf, List.mem_append] at h
        rcases h with h | h
        · exact sendPass_no_sleep flag targets (c + 1) i h
        · exact ih _ i h

lemma waitLoop_sleep_flag_false (flag : Nat → Bool) :
    ∀ remaining_ms c i,
      CoordEvent.sleepTick i ∈ (waitLoop flag remaining_ms c).1 →
      flag i = false := by
  intro remaining_ms
  induction remaining_ms using Nat.strong_induction_on with
  | _ remaining_ms ih =>
      intro c i h
      rw [waitLoop] at h
      by_cases hf : flag c = true
      · rw [if_pos hf] at h; simp at h
      · rw [if_neg hf] at h
        by_cases hr : 0 < remaining_ms
        · rw [dif_pos hr] at h
          simp at h
          rcases h with rfl | h
          · simpa using hf
          · exact ih (remaining_ms - 100) (by omega) (c + 1) i h
        · rw [dif_neg hr] at h; simp at h

lemma waitLoop_no_send (flag : Nat → Bool) :
    ∀ remaining_ms c i t,
      CoordEvent.send i t ∉ (waitLoop flag remaining_ms c).1 := by
  intro remaining_ms
  induction remaining_ms using Nat.strong_induction_on with
  | _ remaining_ms ih =>
      intro c i t h
      rw [waitLoop] at h
      by_cases hf : flag c = true
      · rw [if_pos hf] at h; simp at h
      · rw [if_neg hf] at h
        by_cases hr : 0 < remaining_ms
        · rw [dif_pos hr] at h
          simp at h
          exact ih (remaining_ms - 100) (by omega) (c + 1) i t h
        · rw [dif_neg hr] at h; simp at h

lemma dropLast_two_append {α : Type} (X : List α) (a b : α) :
    (X ++ [a, b]).dropLast.dropLast = X := by
  have h1 : X ++ [a, b] = (X ++ [a]) ++ [b] := by simp
  rw [h1, List.dropLast_concat, List.dropLast_concat]

/-- C9: every `send` and every wait tick in the coordinator's trace is
guarded by a flag load that returned false, so with a monotone (one-shot)
flag that is set at load `k`, no ARP request is sent at or after load `k`
and the bounded wait is truncated likewise; and the trace always ends with
the stop-signal store immediately followed by the collector join. -/
theorem coordinator_checks_flag_before_send (flag : Nat → Bool)
    (retry_count : Nat) (targets : List Nat) (timeout_ms : Nat) (k : Nat)
    (hmono : ∀ i j, i ≤ j → flag i = true → flag j = true)
    (hk : flag k = true) :
    (∀ i t, CoordEvent.send i t ∈ coordinatorTrace flag retry_count targets timeout_ms →
        flag i = false ∧ i < k) ∧
    (∀ i, CoordEvent.sleepTick i ∈ coordinatorTrace flag retry_count targets timeout_ms →
        flag i = false ∧ i < k) ∧
    coordinatorTrace flag retry_count targets timeout_ms =
      (coordinatorTrace flag retry_count targets timeout_ms).dropLast.dropLast ++
        [CoordEvent.setStop, CoordEvent.joinCollector] := by
  have hlt : ∀ i, flag i = false → i < k := by
    intro i hfi
    by_contra hcon
    push_neg at hcon
    rw [hmono k i hcon hk] at hfi
    simp at hfi
  have htrace : coordinatorTrace flag retry_count targets timeout_ms =
      ((sendPasses flag retry_count targets 0).1 ++
        (waitLoop flag timeout_ms (sendPasses flag retry_count targets 0).2).1) ++
        [CoordEvent.setStop, CoordEvent.joinCollector] := by
    simp [coordinatorTrace]
  refine ⟨?_, ?_, ?_⟩
  · intro i t h
    rw [htrace] at h
    simp only [List.mem_append] at h
    have hfi : flag i = false := by
      rcases h with (h | h) | h
      · exact sendPasses_send_flag_false flag targets retry_count 0 i t h
      · exact absurd h (waitLoop_no_send flag timeout_ms _ i t)
      · simp at h
    exact ⟨hfi, hlt i hfi⟩
  · intro i h
    rw [htrace] at h
    simp only [List.mem_append] at h
    have hfi : flag i = false := by
      rcases h with (h | h) | h
      · exact absurd h (sendPasses_no_sleep flag targets retry_count 0 i)
      · exact waitLoop_sleep_flag_false flag timeout_ms _ i h
      · simp at h
    exact ⟨hfi, hlt i hfi⟩
  · rw [htrace, dropLast_two_append]

/-- Witness for C9: a flag that turns on at its third load (index 2) is
monotone and set at load 2, and the concrete trace ends with the stop
store followed by the collector join. -/
theorem coordinator_checks_flag_before_send_witness :
    coordinatorTrace (fun i => decide (2 ≤ i)) 1 [5] 100 =
      (coordinatorTrace (fun i => decide (2 ≤ i)) 1 [5] 100).dropLast.dropLast ++
        [CoordEvent.setStop, CoordEvent.joinCollector] :=
  (coordinator_checks_flag_before_send (fun i => decide (2 ≤ i)) 1 [5] 100 2
      (fun i j hij hi => by
        simp only [decide_eq_true_eq] at hi ⊢
        omega)
      (by decide)).2.2

end ArpScan
